import Mathlib

/-!
Shallow embedding of the EC (embedded-controller) fan-control core of the
ACER-NITRO-5-COOLER-BOOST repository (src/nitro_boost/core.py).

The controller state carries the cached interface handle (`ecPath`,
`useEcSys`), the environment (which candidate paths exist, which register
offsets are readable/writable, the effective uid, the behaviour of the
modprobe remediation) and the backing register store `regs`.  Ghost fields
`writeLog` / `readLog` / `modprobeCount` record every attempted register
write, register read and modprobe invocation; they influence no behaviour
and exist only so that "performs no register access" claims are statable.
-/

/-- The two candidate EC interface paths:
EC_SYS_PATH = /sys/kernel/debug/ec/ec0/io, EC_ACPI_PATH = /dev/ec. -/
inductive ECPath where
  | sysPath : ECPath
  | acpiPath : ECPath
deriving DecidableEq, Repr

/-- Controller state plus modelled environment (register store, path
existence, per-offset I/O success, uid, modprobe behaviour) and ghost
instrumentation logs. -/
structure ECState where
  ecPath : Option ECPath
  useEcSys : Bool
  sysExists : Bool
  acpiExists : Bool
  regs : Nat → Nat
  readable : Nat → Bool
  writable : Nat → Bool
  euid : Nat
  modprobeExc : Bool
  modprobeRC0 : Bool
  sysAfterModprobe : Bool
  modprobeCount : Nat
  writeLog : List (Nat × Nat)
  readLog : List Nat

def EC_WRITE_ENABLE : Nat := 0x03
def EC_GPU_FAN_MODE : Nat := 0x21
def EC_CPU_FAN_MODE : Nat := 0x22
def EC_CPU_FAN_PCT : Nat := 0x37
def EC_GPU_FAN_PCT : Nat := 0x3A
def EC_CPU_FAN_RPM_LO : Nat := 0x13
def EC_CPU_FAN_RPM_HI : Nat := 0x14
def EC_GPU_FAN_RPM_LO : Nat := 0x15
def EC_GPU_FAN_RPM_HI : Nat := 0x16

/-- Whether a candidate path currently exists in the environment. -/
def pathExists (s : ECState) : ECPath → Bool
  | ECPath.sysPath => s.sysExists
  | ECPath.acpiPath => s.acpiExists

/-- NitroBoost._detect_ec_interface: prefer EC_SYS_PATH, else EC_ACPI_PATH. -/
def detect_ec_interface (s : ECState) : ECState × Bool :=
  if s.sysExists then
    ({ s with ecPath := some ECPath.sysPath, useEcSys := true }, true)
  else if s.acpiExists then
    ({ s with ecPath := some ECPath.acpiPath, useEcSys := false }, true)
  else
    (s, false)

/-- NitroBoost._write_ec_sys: guard on a resolved, existing path, then a
single positioned byte write; any I/O failure is absorbed as `false`. -/
def write_ec_sys (s : ECState) (offset value : Nat) : ECState × Bool :=
  match s.ecPath with
  | none => (s, false)
  | some p =>
    if !(pathExists s p) then (s, false)
    else if s.writable offset then
      ({ s with regs := fun x => if x = offset then value else s.regs x }, true)
    else (s, false)

/-- NitroBoost._write_acpi_ec: byte-for-byte the same behaviour as
_write_ec_sys in the source. -/
def write_acpi_ec (s : ECState) (offset value : Nat) : ECState × Bool :=
  match s.ecPath with
  | none => (s, false)
  | some p =>
    if !(pathExists s p) then (s, false)
    else if s.writable offset then
      ({ s with regs := fun x => if x = offset then value else s.regs x }, true)
    else (s, false)

/-- Tail of NitroBoost._write_ec after the lazy-resolution step: the
existence re-check and the dispatch on the interface flag. -/
def write_ec_tail (s : ECState) (offset value : Nat) : ECState × Bool :=
  match s.ecPath with
  | none => (s, false)
  | some p =>
    if !(pathExists s p) then (s, false)
    else if s.useEcSys then write_ec_sys s offset value
    else write_acpi_ec s offset value

/-- NitroBoost._write_ec: resolve the interface lazily when no handle is
cached, then check existence and dispatch.  The attempted write is logged
in the ghost `writeLog` regardless of outcome. -/
def write_ec (s : ECState) (offset value : Nat) : ECState × Bool :=
  let s0 := { s with writeLog := s.writeLog ++ [(offset, value)] }
  match s0.ecPath with
  | none =>
    let d := detect_ec_interface s0
    if !d.2 then (d.1, false)
    else write_ec_tail d.1 offset value
  | some _ => write_ec_tail s0 offset value

/-- Tail of NitroBoost._read_ec after the lazy-resolution step: existence
check, then a single positioned byte read returning the stored byte. -/
def read_ec_at (s : ECState) (offset : Nat) : ECState × Option Nat :=
  match s.ecPath with
  | none => (s, none)
  | some p =>
    if !(pathExists s p) then (s, none)
    else if s.readable offset then (s, some (s.regs offset % 256))
    else (s, none)

/-- NitroBoost._read_ec: lazy resolution, then a byte read; every failure
is absorbed as `none`.  The attempted read is logged in `readLog`. -/
def read_ec (s : ECState) (offset : Nat) : ECState × Option Nat :=
  let s0 := { s with readLog := s.readLog ++ [offset] }
  match s0.ecPath with
  | none =>
    let d := detect_ec_interface s0
    if !d.2 then (d.1, none)
    else read_ec_at d.1 offset
  | some _ => read_ec_at s0 offset

/-- NitroBoost._enable_write: the Write Gate — write 0x11 to offset 0x03. -/
def enable_write (s : ECState) : ECState × Bool :=
  write_ec s EC_WRITE_ENABLE 0x11

/-- NitroBoost._ensure_ec_sys: run `modprobe ec_sys write_support=1`;
report success iff the command returned 0 and EC_SYS_PATH then exists.
The ghost `modprobeCount` counts invocations of the command. -/
def ensure_ec_sys (s : ECState) : ECState × Bool :=
  if s.modprobeExc then
    ({ s with modprobeCount := s.modprobeCount + 1 }, false)
  else
    let s1 := { s with modprobeCount := s.modprobeCount + 1,
                       sysExists := s.sysAfterModprobe }
    (s1, s1.modprobeRC0 && s1.sysExists)

def rootRequiredMsg : String := "Requer privilégios de root (sudo)"

def ecNotFoundMsg : String :=
  "Interface EC não encontrada.\n\nConfigure o kernel:\n1. Edite /etc/default/grub\n2. Adicione ec_sys.write_support=1 em GRUB_CMDLINE_LINUX_DEFAULT\n3. Execute: sudo update-grub\n4. Reinicie o sistema"

/-- NitroBoost.is_available: root check, then the unconditional
_ensure_ec_sys call (with a re-detect on its success), then detection. -/
def is_available (s : ECState) : ECState × (Bool × String) :=
  if s.euid ≠ 0 then (s, (false, rootRequiredMsg))
  else
    let r := ensure_ec_sys s
    let s1 := if r.2 then (detect_ec_interface r.1).1 else r.1
    let d := detect_ec_interface s1
    if !d.2 then (d.1, (false, ecNotFoundMsg))
    else (d.1, (true, "OK"))

/-- NitroBoost.set_cooler_boost_individual: gate, discarded preservation
reads, then the two mode writes whose outcomes are not checked. -/
def set_cooler_boost_individual (s : ECState) (cpu_max gpu_max : Bool) :
    ECState × Bool :=
  let e := enable_write s
  if !e.2 then (e.1, false)
  else
    let r1 := read_ec e.1 EC_CPU_FAN_MODE
    let r2 := read_ec r1.1 EC_GPU_FAN_MODE
    let new_cpu : Nat := if cpu_max then 0x08 else 0x04
    let new_gpu : Nat := if gpu_max then 0x20 else 0x10
    let w1 := write_ec r2.1 EC_CPU_FAN_MODE new_cpu
    let w2 := write_ec w1.1 EC_GPU_FAN_MODE new_gpu
    (w2.1, true)

/-- NitroBoost.set_cooler_boost: both domains together. -/
def set_cooler_boost (s : ECState) (enabled : Bool) : ECState × Bool :=
  set_cooler_boost_individual s enabled enabled

/-- NitroBoost.set_custom_fans: range validation, gate, then the four
unchecked writes (GPU mode, CPU mode, CPU percent, GPU percent). -/
def set_custom_fans (s : ECState) (cpu_percent gpu_percent : Int) :
    ECState × Bool :=
  if ¬ (0 ≤ cpu_percent ∧ cpu_percent ≤ 100) ∨
     ¬ (0 ≤ gpu_percent ∧ gpu_percent ≤ 100) then (s, false)
  else
    let e := enable_write s
    if !e.2 then (e.1, false)
    else
      let w1 := write_ec e.1 EC_GPU_FAN_MODE 0x30
      let w2 := write_ec w1.1 EC_CPU_FAN_MODE 0x0C
      let w3 := write_ec w2.1 EC_CPU_FAN_PCT cpu_percent.toNat
      let w4 := write_ec w3.1 EC_GPU_FAN_PCT gpu_percent.toNat
      (w4.1, true)

/-- NitroBoost.set_custom_fan: both domains at the same percent. -/
def set_custom_fan (s : ECState) (percent : Int) : ECState × Bool :=
  set_custom_fans s percent percent

/-- NitroBoost.get_cooler_boost_status: None if either mode read fails,
else true iff CPU mode = 0x08 and GPU mode = 0x20. -/
def get_cooler_boost_status (s : ECState) : ECState × Option Bool :=
  let r1 := read_ec s EC_CPU_FAN_MODE
  let r2 := read_ec r1.1 EC_GPU_FAN_MODE
  match r1.2, r2.2 with
  | some c, some g => (r2.1, some (decide (c = 0x08 ∧ g = 0x20)))
  | _, _ => (r2.1, none)

/-- NitroBoost._read_fan_rpm_ec: low byte, optional high byte combined as
(hi <<< 8) ||| lo, with 0 and values above 65000 discarded as absent. -/
def read_fan_rpm_ec (s : ECState) (lo_reg : Nat) (hi_reg : Option Nat) :
    ECState × Option Nat :=
  let rlo := read_ec s lo_reg
  match rlo.2 with
  | none => (rlo.1, none)
  | some lo =>
    match hi_reg with
    | some hr =>
      let rhi := read_ec rlo.1 hr
      let val : Nat :=
        match rhi.2 with
        | some hi => (hi <<< 8) ||| lo
        | none => lo
      if val = 0 ∨ 65000 < val then (rhi.1, none) else (rhi.1, some val)
    | none =>
      if lo = 0 ∨ 65000 < lo then (rlo.1, none) else (rlo.1, some lo)

/-- The RPM fallback in get_fan_info: keep a present direct reading,
otherwise estimate percent * 55 when the percent read succeeded. -/
def rpm_or_estimate (direct pct : Option Nat) : Option Nat :=
  match direct, pct with
  | none, some p => some (p * 55)
  | v, _ => v

/-- The snapshot dict returned by NitroBoost.get_fan_info. -/
structure FanInfo where
  mode : String
  cpu_percent : Option Nat
  gpu_percent : Option Nat
  cpu_rpm : Option Nat
  gpu_rpm : Option Nat
  cooler_boost : Option Bool
  cpu_cooler_boost : Option Bool
  gpu_cooler_boost : Option Bool

/-- NitroBoost.get_fan_info: four mode/percent reads, the aggregate mode
label, per-domain boost flags, the RPM reads with the percent*55 estimate
fallback, and a fresh get_cooler_boost_status call. -/
def get_fan_info (s : ECState) : ECState × FanInfo :=
  let r1 := read_ec s EC_CPU_FAN_MODE
  let r2 := read_ec r1.1 EC_GPU_FAN_MODE
  let r3 := read_ec r2.1 EC_CPU_FAN_PCT
  let r4 := read_ec r3.1 EC_GPU_FAN_PCT
  let mode : String :=
    match r1.2, r2.2 with
    | some c, some g =>
      if c = 0x08 ∧ g = 0x20 then "max"
      else if c = 0x04 ∧ g = 0x10 then "auto"
      else if c = 0x0C ∧ g = 0x30 then "custom"
      else "unknown"
    | _, _ => "unknown"
  let cpu_cb : Option Bool := r1.2.map (fun c => decide (c = 0x08))
  let gpu_cb : Option Bool := r2.2.map (fun g => decide (g = 0x20))
  let rc := read_fan_rpm_ec r4.1 EC_CPU_FAN_RPM_LO (some EC_CPU_FAN_RPM_HI)
  let rg := read_fan_rpm_ec rc.1 EC_GPU_FAN_RPM_LO (some EC_GPU_FAN_RPM_HI)
  let cpu_rpm : Option Nat := rpm_or_estimate rc.2 r3.2
  let gpu_rpm : Option Nat := rpm_or_estimate rg.2 r4.2
  let cb := get_cooler_boost_status rg.1
  (cb.1,
   { mode := mode
     cpu_percent := r3.2
     gpu_percent := r4.2
     cpu_rpm := cpu_rpm
     gpu_rpm := gpu_rpm
     cooler_boost := cb.2
     cpu_cooler_boost := cpu_cb
     gpu_cooler_boost := gpu_cb })

/-! ## Helper lemmas about the register-access primitives -/

/-- Every call to write_ec appends exactly its attempted write to the
ghost write log, whatever the outcome. -/
lemma write_ec_log (s : ECState) (o v : Nat) :
    (write_ec s o v).1.writeLog = s.writeLog ++ [(o, v)] := by
  unfold write_ec write_ec_tail write_ec_sys write_acpi_ec detect_ec_interface
  cases hp : s.ecPath <;>
    simp [hp, pathExists] <;>
    split_ifs <;>
    simp_all [pathExists]

/-- A failed write_ec leaves the register store unchanged. -/
lemma write_ec_fail_regs (s : ECState) (o v : Nat)
    (h : (write_ec s o v).2 = false) : (write_ec s o v).1.regs = s.regs := by
  unfold write_ec write_ec_tail write_ec_sys write_acpi_ec detect_ec_interface at *
  cases hp : s.ecPath <;>
    simp [hp, pathExists] at h ⊢ <;>
    split_ifs at h ⊢ <;>
    simp_all [pathExists]

/-- read_ec never changes the register store. -/
lemma read_ec_regs (s : ECState) (o : Nat) :
    (read_ec s o).1.regs = s.regs := by
  unfold read_ec read_ec_at detect_ec_interface
  cases hp : s.ecPath <;>
    simp [hp, pathExists] <;>
    split_ifs <;>
    simp_all [pathExists]

/-- A write through a cached, existing, writable interface succeeds and
updates exactly the written offset (plus the ghost log). -/
lemma write_ec_ok (s : ECState) (pth : ECPath) (o v : Nat)
    (h : s.ecPath = some pth) (hex : pathExists s pth = true)
    (hw : s.writable o = true) :
    write_ec s o v =
      ({ s with writeLog := s.writeLog ++ [(o, v)],
                regs := fun x => if x = o then v else s.regs x }, true) := by
  cases hu : s.useEcSys <;>
    cases pth <;>
    simp_all [write_ec, write_ec_tail, write_ec_sys, write_acpi_ec, pathExists]

/-- A read through a cached, existing, readable interface returns the
stored byte and only extends the ghost read log. -/
lemma read_ec_ok (s : ECState) (pth : ECPath) (o : Nat)
    (h : s.ecPath = some pth) (hex : pathExists s pth = true)
    (hr : s.readable o = true) :
    read_ec s o = ({ s with readLog := s.readLog ++ [o] },
                   some (s.regs o % 256)) := by
  cases pth <;>
    simp_all [read_ec, read_ec_at, pathExists]

/-- A successful read always returns a byte. -/
lemma read_ec_byte (s : ECState) (o v : Nat)
    (h : (read_ec s o).2 = some v) : v < 256 := by
  unfold read_ec read_ec_at detect_ec_interface at h
  cases hp : s.ecPath <;>
    simp [hp, pathExists] at h <;>
    split_ifs at h <;>
    simp_all <;>
    omega

/-- A value surfaced by the direct RPM read is nonzero and at most 65000. -/
lemma read_fan_rpm_ec_bounds (s : ECState) (lo_reg : Nat) (hi_reg : Option Nat)
    (v : Nat) (h : (read_fan_rpm_ec s lo_reg hi_reg).2 = some v) :
    v ≠ 0 ∧ v ≤ 65000 := by
  unfold read_fan_rpm_ec at h
  cases h1 : (read_ec s lo_reg).2 <;> simp [h1] at h
  cases hi_reg <;> simp at h
  · split_ifs at h
    simp_all
  · split_ifs at h
    simp_all

/-! ## Concrete states used by witnesses and counterexamples -/

/-- Baseline: no cached handle, neither candidate path exists, zeroed
store, every offset readable/writable, root uid, failing modprobe. -/
def baseState : ECState where
  ecPath := none
  useEcSys := false
  sysExists := false
  acpiExists := false
  regs := fun _ => 0
  readable := fun _ => true
  writable := fun _ => true
  euid := 0
  modprobeExc := true
  modprobeRC0 := false
  sysAfterModprobe := false
  modprobeCount := 0
  writeLog := []
  readLog := []

/-- The debugfs interface is cached, exists, and is fully functional. -/
def liveState : ECState :=
  { baseState with ecPath := some ECPath.sysPath, useEcSys := true,
                   sysExists := true }

/-- liveState whose percent registers hold 50 and whose RPM registers
read 0 (so the direct RPM read is discarded). -/
def pct50State : ECState :=
  { liveState with
      regs := fun o => if o = EC_CPU_FAN_PCT then 50
                       else if o = EC_GPU_FAN_PCT then 50 else 0 }

/-- A stale cache: the cached debugfs path no longer exists while the
character-device candidate does. -/
def staleCacheState : ECState :=
  { baseState with ecPath := some ECPath.sysPath, useEcSys := true,
                   sysExists := false, acpiExists := true }

/-! ## Claims -/

/-- Claim C10: set_cooler_boost b is exactly set_cooler_boost_individual
b b, and set_custom_fan p is exactly set_custom_fans p p — identical
result and identical final state (register store and access logs). -/
theorem single_arg_entry_points_equiv (s : ECState) (b : Bool) (p : Int) :
    set_cooler_boost s b = set_cooler_boost_individual s b b
    ∧ set_custom_fan s p = set_custom_fans s p p :=
  ⟨rfl, rfl⟩

/-- Claim C2: with either percent outside [0,100], set_custom_fans
returns false and the state — register store, cached handle and both
ghost access logs — is exactly unchanged: no register access happened. -/
theorem set_custom_fans_rejects_out_of_range (s : ECState) (cp gp : Int)
    (h : ¬ (0 ≤ cp ∧ cp ≤ 100) ∨ ¬ (0 ≤ gp ∧ gp ≤ 100)) :
    set_custom_fans s cp gp = (s, false) := by
  unfold set_custom_fans
  rw [if_pos h]

theorem set_custom_fans_rejects_out_of_range_witness :
    set_custom_fans baseState 101 50 = (baseState, false) :=
  set_custom_fans_rejects_out_of_range baseState 101 50 (Or.inl (by norm_num))

/-- Claim C3: get_cooler_boost_status is Unknown (none) iff the CPU mode
read or the following GPU mode read fails, and on two successful reads it
is some of (CPU byte = 0x08 and GPU byte = 0x20). -/
theorem get_cooler_boost_status_spec (s : ECState) :
    (((get_cooler_boost_status s).2 = none ↔
        ((read_ec s EC_CPU_FAN_MODE).2 = none ∨
         (read_ec (read_ec s EC_CPU_FAN_MODE).1 EC_GPU_FAN_MODE).2 = none))
     ∧ ∀ c g, (read_ec s EC_CPU_FAN_MODE).2 = some c →
         (read_ec (read_ec s EC_CPU_FAN_MODE).1 EC_GPU_FAN_MODE).2 = some g →
         (get_cooler_boost_status s).2 = some (decide (c = 0x08 ∧ g = 0x20))) := by
  unfold get_cooler_boost_status
  cases h1 : (read_ec s EC_CPU_FAN_MODE).2 <;>
  cases h2 : (read_ec (read_ec s EC_CPU_FAN_MODE).1 EC_GPU_FAN_MODE).2 <;>
  simp [h1, h2]

theorem get_cooler_boost_status_spec_witness :
    (get_cooler_boost_status liveState).2 = some false := by
  have h := (get_cooler_boost_status_spec liveState).2 0 0 rfl rfl
  simpa using h

/-- Claim C1: set_cooler_boost_individual, and set_custom_fans on
in-range percents, report success exactly as the Write Gate (enable write
of 0x11 to 0x03) reports it, regardless of the later mode/percent write
outcomes; and when the enable write fails they return false with only the
enable write attempted (the ghost write log gains exactly that entry) and
the register store unchanged. -/
theorem mutating_ops_gate_spec (s : ECState) (cm gm : Bool) (cp gp : Int)
    (hc : 0 ≤ cp ∧ cp ≤ 100) (hg : 0 ≤ gp ∧ gp ≤ 100) :
    ((set_cooler_boost_individual s cm gm).2 = (enable_write s).2
      ∧ ((enable_write s).2 = false →
          (set_cooler_boost_individual s cm gm).1.writeLog
              = s.writeLog ++ [(EC_WRITE_ENABLE, 0x11)]
          ∧ (set_cooler_boost_individual s cm gm).1.regs = s.regs))
    ∧ ((set_custom_fans s cp gp).2 = (enable_write s).2
      ∧ ((enable_write s).2 = false →
          (set_custom_fans s cp gp).1.writeLog
              = s.writeLog ++ [(EC_WRITE_ENABLE, 0x11)]
          ∧ (set_custom_fans s cp gp).1.regs = s.regs)) := by
  have hcond : ¬ (¬ (0 ≤ cp ∧ cp ≤ 100) ∨ ¬ (0 ≤ gp ∧ gp ≤ 100)) := by
    push_neg
    exact ⟨hc, hg⟩
  have hlog : (enable_write s).1.writeLog
      = s.writeLog ++ [(EC_WRITE_ENABLE, 0x11)] :=
    write_ec_log s EC_WRITE_ENABLE 0x11
  refine ⟨⟨?_, ?_⟩, ?_, ?_⟩
  · unfold set_cooler_boost_individual
    cases he : (enable_write s).2 <;> simp [he]
  · intro he
    have hregs : (enable_write s).1.regs = s.regs :=
      write_ec_fail_regs s EC_WRITE_ENABLE 0x11 he
    unfold set_cooler_boost_individual
    simp [he, hlog, hregs]
  · unfold set_custom_fans
    rw [if_neg hcond]
    cases he : (enable_write s).2 <;> simp [he]
  · intro he
    have hregs : (enable_write s).1.regs = s.regs :=
      write_ec_fail_regs s EC_WRITE_ENABLE 0x11 he
    unfold set_custom_fans
    rw [if_neg hcond]
    simp [he, hlog, hregs]

theorem mutating_ops_gate_spec_witness :
    (set_cooler_boost_individual baseState true false).2 = false
    ∧ (set_custom_fans baseState 50 50).2 = false
    ∧ (set_cooler_boost_individual baseState true false).1.regs
        = baseState.regs := by
  have h := mutating_ops_gate_spec baseState true false 50 50
    (by norm_num) (by norm_num)
  exact ⟨h.1.1.trans rfl, h.2.1.trans rfl, (h.1.2 rfl).2⟩

/-- Claim C4: the aggregate mode of get_fan_info is "max" iff the CPU and
GPU mode reads return 0x08 and 0x20, "auto" iff 0x04 and 0x10, "custom"
iff 0x0C and 0x30, and "unknown" in every other case — including failed
reads and mixed mode families. -/
theorem get_fan_info_mode_spec (s : ECState) :
    (((get_fan_info s).2.mode = "max" ↔
        ((read_ec s EC_CPU_FAN_MODE).2 = some 0x08 ∧
         (read_ec (read_ec s EC_CPU_FAN_MODE).1 EC_GPU_FAN_MODE).2 = some 0x20))
     ∧ ((get_fan_info s).2.mode = "auto" ↔
        ((read_ec s EC_CPU_FAN_MODE).2 = some 0x04 ∧
         (read_ec (read_ec s EC_CPU_FAN_MODE).1 EC_GPU_FAN_MODE).2 = some 0x10))
     ∧ ((get_fan_info s).2.mode = "custom" ↔
        ((read_ec s EC_CPU_FAN_MODE).2 = some 0x0C ∧
         (read_ec (read_ec s EC_CPU_FAN_MODE).1 EC_GPU_FAN_MODE).2 = some 0x30))
     ∧ ((get_fan_info s).2.mode = "unknown" ↔
        (¬ ((read_ec s EC_CPU_FAN_MODE).2 = some 0x08 ∧
            (read_ec (read_ec s EC_CPU_FAN_MODE).1 EC_GPU_FAN_MODE).2 = some 0x20)
         ∧ ¬ ((read_ec s EC_CPU_FAN_MODE).2 = some 0x04 ∧
            (read_ec (read_ec s EC_CPU_FAN_MODE).1 EC_GPU_FAN_MODE).2 = some 0x10)
         ∧ ¬ ((read_ec s EC_CPU_FAN_MODE).2 = some 0x0C ∧
            (read_ec (read_ec s EC_CPU_FAN_MODE).1 EC_GPU_FAN_MODE).2 = some 0x30)))) := by
  unfold get_fan_info
  rcases h1 : (read_ec s EC_CPU_FAN_MODE).2 with _ | c <;>
  rcases h2 : (read_ec (read_ec s EC_CPU_FAN_MODE).1 EC_GPU_FAN_MODE).2 with _ | g <;>
  simp [h1, h2]
  split_ifs <;> simp_all

/-- Source functions _write_ec_sys and _write_acpi_ec are identical, so the
interface-flag dispatch in _write_ec is behaviourally irrelevant. -/
lemma write_ec_tail_eq (s : ECState) (o v : Nat) :
    write_ec_tail s o v = write_ec_sys s o v := by
  have hacpi : write_acpi_ec = write_ec_sys := rfl
  unfold write_ec_tail
  cases hp : s.ecPath with
  | none => unfold write_ec_sys; simp [hp]
  | some p =>
    rw [hacpi]
    by_cases hpe : pathExists s p
    · simp [hpe]
    · simp [Bool.not_eq_true] at hpe
      unfold write_ec_sys
      simp [hp, hpe]

/-- Claim C5: against a cached, existing, fully readable and writable
interface (every write succeeds and every read returns the stored byte),
set_custom_fans p p followed by get_fan_info reports mode "custom" and
both percents equal to p, for every p in [0,100]. -/
theorem set_custom_then_get_fan_info (s : ECState) (p : Int)
    (hp : 0 ≤ p ∧ p ≤ 100)
    (h : s.ecPath = some ECPath.sysPath) (hsys : s.sysExists = true)
    (hr : ∀ o, s.readable o = true) (hw : ∀ o, s.writable o = true) :
    (set_custom_fans s p p).2 = true
    ∧ (get_fan_info (set_custom_fans s p p).1).2.mode = "custom"
    ∧ (get_fan_info (set_custom_fans s p p).1).2.cpu_percent = some p.toNat
    ∧ (get_fan_info (set_custom_fans s p p).1).2.gpu_percent = some p.toNat := by
  obtain ⟨hp0, hp1⟩ := hp
  have hcond : ¬ (¬ (0 ≤ p ∧ p ≤ 100) ∨ ¬ (0 ≤ p ∧ p ≤ 100)) := by
    push_neg
    exact ⟨⟨hp0, hp1⟩, hp0, hp1⟩
  have hmod : p.toNat % 256 = p.toNat := Nat.mod_eq_of_lt (by omega)
  unfold set_custom_fans get_fan_info get_cooler_boost_status read_fan_rpm_ec
  rw [if_neg hcond]
  simp only [enable_write, write_ec, write_ec_tail_eq, write_ec_sys, read_ec,
    read_ec_at, pathExists, detect_ec_interface, EC_WRITE_ENABLE,
    EC_GPU_FAN_MODE, EC_CPU_FAN_MODE, EC_CPU_FAN_PCT, EC_GPU_FAN_PCT,
    EC_CPU_FAN_RPM_LO, EC_CPU_FAN_RPM_HI, EC_GPU_FAN_RPM_LO,
    EC_GPU_FAN_RPM_HI, h, hsys, hr, hw, hmod]
  simp [h, hsys, hr, hw, hmod, pathExists, rpm_or_estimate]

theorem set_custom_then_get_fan_info_witness :
    (set_custom_fans liveState 37 37).2 = true
    ∧ (get_fan_info (set_custom_fans liveState 37 37).1).2.mode = "custom"
    ∧ (get_fan_info (set_custom_fans liveState 37 37).1).2.cpu_percent
        = some 37
    ∧ (get_fan_info (set_custom_fans liveState 37 37).1).2.gpu_percent
        = some 37 := by
  have h := set_custom_then_get_fan_info liveState 37 (by norm_num) rfl rfl
    (fun _ => rfl) (fun _ => rfl)
  exact h

/-- Claim C6: the direct RPM read combines a readable high byte with the
low byte as (hi <<< 8) ||| lo and discards 0 or values above 65000 as
absent; and in each domain, whenever the direct read of that domain
yields nothing and the domain's percent read returned p, get_fan_info
reports that domain's RPM as p * 55 (so percent 50 yields RPM 2750). -/
theorem fan_rpm_read_spec (s : ECState) (lo_reg hi_reg : Nat) :
    (∀ lo hi, (read_ec s lo_reg).2 = some lo →
        (read_ec (read_ec s lo_reg).1 hi_reg).2 = some hi →
        (read_fan_rpm_ec s lo_reg (some hi_reg)).2 =
          (if (hi <<< 8) ||| lo = 0 ∨ 65000 < (hi <<< 8) ||| lo then none
           else some ((hi <<< 8) ||| lo)))
    ∧ (∀ v, (read_fan_rpm_ec s lo_reg (some hi_reg)).2 = some v →
        v ≠ 0 ∧ v ≤ 65000)
    ∧ (∀ p, (read_fan_rpm_ec
          (read_ec (read_ec (read_ec (read_ec s EC_CPU_FAN_MODE).1
             EC_GPU_FAN_MODE).1 EC_CPU_FAN_PCT).1 EC_GPU_FAN_PCT).1
          EC_CPU_FAN_RPM_LO (some EC_CPU_FAN_RPM_HI)).2 = none →
       (read_ec (read_ec (read_ec s EC_CPU_FAN_MODE).1 EC_GPU_FAN_MODE).1
          EC_CPU_FAN_PCT).2 = some p →
       (get_fan_info s).2.cpu_rpm = some (p * 55))
    ∧ (∀ q, (read_fan_rpm_ec
          (read_fan_rpm_ec
            (read_ec (read_ec (read_ec (read_ec s EC_CPU_FAN_MODE).1
               EC_GPU_FAN_MODE).1 EC_CPU_FAN_PCT).1 EC_GPU_FAN_PCT).1
            EC_CPU_FAN_RPM_LO (some EC_CPU_FAN_RPM_HI)).1
          EC_GPU_FAN_RPM_LO (some EC_GPU_FAN_RPM_HI)).2 = none →
       (read_ec (read_ec (read_ec (read_ec s EC_CPU_FAN_MODE).1
          EC_GPU_FAN_MODE).1 EC_CPU_FAN_PCT).1 EC_GPU_FAN_PCT).2 = some q →
       (get_fan_info s).2.gpu_rpm = some (q * 55)) := by
  refine ⟨?_, ?_, ?_, ?_⟩
  · intro lo hi h1 h2
    unfold read_fan_rpm_ec
    simp [h1, h2]
    split_ifs <;> rfl
  · intro v hv
    exact read_fan_rpm_ec_bounds s lo_reg (some hi_reg) v hv
  · intro p hnone hp
    unfold get_fan_info
    simp [hnone, hp, rpm_or_estimate]
  · intro q hnone hq
    unfold get_fan_info
    simp [hnone, hq, rpm_or_estimate]

theorem fan_rpm_read_spec_witness :
    (get_fan_info pct50State).2.cpu_rpm = some 2750
    ∧ (get_fan_info pct50State).2.gpu_rpm = some 2750 :=
  ⟨(fan_rpm_read_spec pct50State 0 0).2.2.1 50 rfl rfl,
   (fan_rpm_read_spec pct50State 0 0).2.2.2 50 rfl rfl⟩

/-- Bound for the RPM field: a kept direct reading obeys its own bound
and the estimate is a byte times 55. -/
lemma rpm_or_estimate_bound (direct pct : Option Nat)
    (hd : ∀ w, direct = some w → w ≤ 65000)
    (hb : ∀ q, pct = some q → q < 256) (v : Nat)
    (h : rpm_or_estimate direct pct = some v) : v ≤ 65000 := by
  cases direct with
  | none =>
    cases pct with
    | none => simp [rpm_or_estimate] at h
    | some q =>
      simp [rpm_or_estimate] at h
      have hq : q < 256 := hb q rfl
      omega
  | some w =>
    simp [rpm_or_estimate] at h
    exact h ▸ hd w rfl

/-- Claim C7 counterexample: on a fully readable store whose registers
all read 0, the direct RPM value 0 is discarded, but the estimate path
surfaces percent 0 as a literal cpu_rpm of 0 in the snapshot. -/
theorem fan_info_rpm_zero_counterexample :
    (get_fan_info liveState).2.cpu_rpm = some 0 := rfl

/-- Claim C7 as amended: the cpu_rpm and gpu_rpm snapshot fields never
exceed 65000, and any value surfaced by the direct RPM register read is
nonzero and at most 65000; but the percent * 55 estimate is surfaced
literally, and is 0 when the percent register reads 0. -/
theorem fan_info_rpm_bounds (s : ECState) (v lo hi : Nat) :
    (((get_fan_info s).2.cpu_rpm = some v
      ∨ (get_fan_info s).2.gpu_rpm = some v) → v ≤ 65000)
    ∧ ((read_fan_rpm_ec s lo (some hi)).2 = some v → v ≠ 0 ∧ v ≤ 65000) := by
  constructor
  · intro hv
    simp only [get_fan_info] at hv
    rcases hv with hv | hv
    · exact rpm_or_estimate_bound _ _
        (fun w hw => (read_fan_rpm_ec_bounds _ _ _ w hw).2)
        (fun q hq => read_ec_byte _ _ q hq) v hv
    · exact rpm_or_estimate_bound _ _
        (fun w hw => (read_fan_rpm_ec_bounds _ _ _ w hw).2)
        (fun q hq => read_ec_byte _ _ q hq) v hv
  · intro hdir
    exact read_fan_rpm_ec_bounds s lo (some hi) v hdir

/-- liveState with a direct CPU RPM register pair reading 3000. -/
def rpmState : ECState :=
  { liveState with
      regs := fun o => if o = EC_CPU_FAN_RPM_HI then 11
                       else if o = EC_CPU_FAN_RPM_LO then 184 else 0 }

theorem fan_info_rpm_bounds_witness :
    (2750 : Nat) ≤ 65000 ∧ (3000 : Nat) ≠ 0 ∧ (3000 : Nat) ≤ 65000 :=
  ⟨(fan_info_rpm_bounds pct50State 2750 0 0).1 (Or.inl rfl),
   (fan_info_rpm_bounds rpmState 3000 EC_CPU_FAN_RPM_LO
      EC_CPU_FAN_RPM_HI).2 rfl⟩

/-- Claim C8 counterexample: with a cached debugfs handle whose path has
vanished while the character-device candidate exists (and would be found
by discovery), the register access simply fails and the stale handle is
kept — candidate discovery is not re-run before reporting failure. -/
theorem stale_cache_no_rediscovery_counterexample :
    (write_ec staleCacheState EC_GPU_FAN_MODE 0x30).2 = false
    ∧ (write_ec staleCacheState EC_GPU_FAN_MODE 0x30).1.ecPath
        = some ECPath.sysPath
    ∧ (read_ec staleCacheState EC_GPU_FAN_MODE).2 = none
    ∧ (read_ec staleCacheState EC_GPU_FAN_MODE).1.ecPath
        = some ECPath.sysPath
    ∧ (detect_ec_interface staleCacheState).2 = true :=
  ⟨rfl, rfl, rfl, rfl, rfl⟩

/-- Claim C8 as amended: once a handle is cached, an access whose path no
longer exists fails immediately (write false, read none) with the cached
handle unchanged and the store untouched; discovery is re-run only when
no handle is cached at all, never on such a failure. -/
theorem stale_cache_access_fails (s : ECState) (p : ECPath) (o v : Nat)
    (h : s.ecPath = some p) (hne : pathExists s p = false) :
    (write_ec s o v).2 = false
    ∧ (write_ec s o v).1.ecPath = s.ecPath
    ∧ (write_ec s o v).1.regs = s.regs
    ∧ (read_ec s o).2 = none
    ∧ (read_ec s o).1.ecPath = s.ecPath := by
  cases p <;>
    simp_all [write_ec, write_ec_tail, write_ec_sys, write_acpi_ec,
      read_ec, read_ec_at, pathExists]

theorem stale_cache_access_fails_witness :
    (write_ec staleCacheState EC_CPU_FAN_MODE 0x08).2 = false
    ∧ (write_ec staleCacheState EC_CPU_FAN_MODE 0x08).1.ecPath
        = staleCacheState.ecPath
    ∧ (write_ec staleCacheState EC_CPU_FAN_MODE 0x08).1.regs
        = staleCacheState.regs
    ∧ (read_ec staleCacheState EC_CPU_FAN_MODE).2 = none
    ∧ (read_ec staleCacheState EC_CPU_FAN_MODE).1.ecPath
        = staleCacheState.ecPath :=
  stale_cache_access_fails staleCacheState ECPath.sysPath
    EC_CPU_FAN_MODE 0x08 rfl rfl

/-- Root environment in which the debugfs candidate already exists and
the modprobe invocation would raise (so any invocation is observable). -/
def modprobeProbeState : ECState :=
  { baseState with sysExists := true }

/-- Claim C9 counterexample: a candidate resource already exists, yet
running is_available still invokes the module-loading command once. -/
theorem modprobe_unconditional_counterexample :
    modprobeProbeState.sysExists = true
    ∧ (is_available modprobeProbeState).1.modprobeCount = 1
    ∧ (is_available modprobeProbeState).2.1 = true :=
  ⟨rfl, rfl, rfl⟩

/-- Claim C9 as amended: whenever is_available runs as root it invokes
the module-loading command exactly once, unconditionally and before any
probing — not only when both candidates are missing; without root it is
never invoked. -/
theorem is_available_modprobe_always (s : ECState) :
    (s.euid = 0 → (is_available s).1.modprobeCount = s.modprobeCount + 1)
    ∧ (s.euid ≠ 0 → (is_available s).1.modprobeCount = s.modprobeCount) := by
  constructor
  · intro h0
    cases hm : s.modprobeExc <;>
    cases hrc : s.modprobeRC0 <;>
    cases hsa : s.sysAfterModprobe <;>
    cases hse : s.sysExists <;>
    cases hac : s.acpiExists <;>
    simp [is_available, ensure_ec_sys, detect_ec_interface, h0, hm, hrc,
      hsa, hse, hac]
  · intro hne
    unfold is_available
    simp [hne]

theorem is_available_modprobe_always_witness :
    (is_available modprobeProbeState).1.modprobeCount
      = modprobeProbeState.modprobeCount + 1 :=
  (is_available_modprobe_always modprobeProbeState).1 rfl
